import Mathlib

/-!
Verification of the email-assistant pipeline (src/agent.py, src/tools.py).

Text is modelled as `List Char`. Python string primitives (`strip`, `rstrip`,
`split`, `replace`, `startswith`, `lower`, substring test) are embedded as
executable functions on character lists. The line-oriented result parser, the
error classifier, the input guardrail and the top-level `process_email`
control flow are translated from the source; the behaviour of the external
Agents SDK run (which is not part of this repository) is modelled from the
specification where a claim depends on it.
-/

/-- Text as a list of characters, the denotation of a Python `str`. -/
abbrev Str : Type := List Char

/-- Character list of a Lean string literal, used to write concrete texts. -/
def chars (s : String) : Str := s.data

/-- ASCII whitespace recognised by the embedded `strip`/`rstrip`; matches the
characters Python treats as whitespace in the ASCII range. -/
def pyIsSpace (c : Char) : Bool :=
  c = ' ' || c = '\t' || c = '\n' || c = '\r' || c = '\x0b' || c = '\x0c'

/-- Python `str.lstrip()`: drop leading whitespace. -/
def pyLstrip (s : Str) : Str := s.dropWhile pyIsSpace

/-- Python `str.rstrip()`: drop trailing whitespace. -/
def pyRstrip (s : Str) : Str := s.rdropWhile pyIsSpace

/-- Python `str.strip()`: drop whitespace at both ends. -/
def pyStrip (s : Str) : Str := pyRstrip (pyLstrip s)

/-- Lower-case a character in the ASCII range, as Python `str.lower()` does. -/
def pyLowerChar (c : Char) : Char :=
  if 'A' ≤ c ∧ c ≤ 'Z' then Char.ofNat (c.toNat + 32) else c

/-- Python `str.lower()` restricted to ASCII case folding. -/
def pyLower (s : Str) : Str := s.map pyLowerChar

/-- Fuel-indexed left-to-right replacement of non-overlapping occurrences;
structural in the fuel so that concrete inputs evaluate by kernel reduction. -/
def replaceAllFuel (old new : Str) : Nat → Str → Str
  | _, [] => []
  | 0, s => s
  | fuel + 1, c :: rest =>
    if old ≠ [] ∧ old.isPrefixOf (c :: rest) = true then
      new ++ replaceAllFuel old new fuel ((c :: rest).drop old.length)
    else
      c :: replaceAllFuel old new fuel rest

/-- Python `str.replace(old, new)` for a non-empty pattern `old` (every call
site in the source passes a non-empty literal pattern). -/
def replaceAll (old new s : Str) : Str := replaceAllFuel old new s.length s

/-- Python substring test `needle in hay`. -/
def containsSub (needle : Str) : Str → Bool
  | [] => needle.isPrefixOf []
  | c :: rest => needle.isPrefixOf (c :: rest) || containsSub needle rest

/-- Parser field marker last seen, mirroring the `current_field` variable in
`process_email_with_handoff_agent`. -/
inductive FieldTag where
  | cat
  | summ
  | rep
deriving DecidableEq

/-- Loop state of the structured-response parsing loop in
`process_email_with_handoff_agent` (src/tools.py lines 435-468). -/
structure ParseState where
  category : Str
  summary : Str
  reply_lines : List Str
  current_field : Option FieldTag
deriving DecidableEq

/-- Initial parser state: the three default values and no current field. -/
def initState : ParseState :=
  ⟨chars "Other", chars "Unable to generate summary", [], none⟩

/-- One iteration of the parsing loop of `process_email_with_handoff_agent`
(src/tools.py lines 443-468), translated branch by branch. -/
def parseLine (st : ParseState) (rawLine : Str) : ParseState :=
  let line := pyStrip rawLine
  if line = [] then
    if st.current_field = some FieldTag.rep then
      { st with reply_lines := st.reply_lines ++ [[]] }
    else st
  else if (chars "Category:").isPrefixOf line then
    { st with category := pyStrip (replaceAll (chars "Category:") [] line),
              current_field := some FieldTag.cat }
  else if (chars "Summary:").isPrefixOf line then
    { st with summary := pyStrip (replaceAll (chars "Summary:") [] line),
              current_field := some FieldTag.summ }
  else if (chars "Reply:").isPrefixOf line then
    let reply_content := pyStrip (replaceAll (chars "Reply:") [] line)
    { st with reply_lines := if reply_content = [] then [] else [reply_content],
              current_field := some FieldTag.rep }
  else if st.current_field = some FieldTag.rep then
    { st with reply_lines := st.reply_lines ++ [line] }
  else st

/-- Reply post-processing of src/tools.py lines 484-497: when the assembled
reply is non-empty and not the default, literal backslash-n pairs become line
breaks and every line loses its trailing whitespace. -/
def pyPostFormat (reply : Str) : Str :=
  if reply ≠ [] ∧ reply ≠ chars "Unable to generate reply" then
    let r := replaceAll (chars "\\n") ['\n'] reply
    List.intercalate ['\n'] ((r.splitOn '\n').map pyRstrip)
  else reply

/-- Structured fields extracted from the orchestrator output. -/
structure ParseOut where
  category : Str
  summary : Str
  reply : Str
deriving DecidableEq

/-- Whole parsing phase of `process_email_with_handoff_agent` (src/tools.py
lines 426-497): strip and split the raw output, fold the line parser, assemble
the reply from the accumulated pieces, then post-format it. -/
def parseResult (result : Str) : ParseOut :=
  let lines := (pyStrip result).splitOn '\n'
  let st := lines.foldl parseLine initState
  let reply0 := if st.reply_lines = [] then chars "Unable to generate reply"
                else List.intercalate ['\n'] st.reply_lines
  ⟨st.category, st.summary, pyPostFormat reply0⟩

/-- Structured verdict of the content safety screener agent, the
`ContentCheckOutput` pydantic model of src/tools.py lines 20-27. -/
structure ContentCheckOutput where
  is_malicious : Bool
  detected_categories : List Str
  severity : Str
  reason : Str

/-- The `output_info` dictionary attached to a `GuardrailFunctionOutput` by
`guardrail_against_malicious_content`, one constructor per branch of the
source function (src/tools.py lines 187-188, 230-237, 244-245). -/
inductive GuardrailInfo where
  | noApiKeyInfo
  | checkedInfo (v : ContentCheckOutput)
  | errorInfo (msg : Str)

/-- Result record of an input guardrail check, as returned by
`guardrail_against_malicious_content`. -/
structure GuardrailFunctionOutput where
  output_info : GuardrailInfo
  tripwire_triggered : Bool

/-- Outcome of the screening step inside the guardrail: the credential can be
absent from the environment, the screener agent can return a verdict, or the
run can raise an exception with some message. -/
inductive ScreenOutcome where
  | noApiKey
  | verdict (v : ContentCheckOutput)
  | exn (msg : Str)

/-- Embedding of `guardrail_against_malicious_content` (src/tools.py lines
169-247): with no credential it does not trip (lines 185-190); with a verdict
it trips exactly when `is_malicious` holds (lines 230-239); when screening
raises, the exception is swallowed and the tripwire stays untriggered (lines
241-247). The audit-log write is a side effect outside the returned value. -/
def guardrail_against_malicious_content : ScreenOutcome → GuardrailFunctionOutput
  | .noApiKey => ⟨.noApiKeyInfo, false⟩
  | .verdict v => ⟨.checkedInfo v, v.is_malicious⟩
  | .exn msg => ⟨.errorInfo msg, false⟩

/-- Dictionary behind the `output_info` attribute read by the error handler
of `process_email_with_handoff_agent`; each field is optional because the
handler reads it with `dict.get` and a default. -/
structure GuardrailDict where
  detected_categories : Option (List Str)
  severity : Option Str
  reason : Option Str

/-- Python exception as observed by the `except` block: its string message
plus the optional `output_info` attribute (absent or not a dict is `none`). -/
structure PyExn where
  message : Str
  output_info : Option GuardrailDict

/-- Safety-rejection message construction of src/tools.py lines 515-526: with
an `output_info` dictionary the detected categories, severity and reason are
read with defaults and joined into the detailed message; without one the
generic safety message is used. -/
def safetyMessage : Option GuardrailDict → Str
  | some info =>
    let cats := info.detected_categories.getD []
    let sev := info.severity.getD (chars "unknown")
    let why := info.reason.getD (chars "Content blocked by safety guardrail")
    if cats ≠ [] then
      chars "Content blocked by safety guardrail. Detected issues: " ++
        List.intercalate (chars ", ") cats ++
        chars " (Severity: " ++ sev ++ chars "). Reason: " ++ why
    else
      chars "Content blocked by safety guardrail. Reason: " ++ why
  | none =>
    chars "Content blocked by safety guardrail. The email contains potentially harmful, offensive, or inappropriate content that cannot be processed."

/-- Error-message classification of src/tools.py lines 509-535, translated
if-branch by if-branch; every branch lower-cases the message afresh, exactly
as each Python condition calls `error_message.lower()` again. -/
def classifyError (e : PyExn) : Str :=
  if containsSub (chars "guardrail") (pyLower e.message) ||
     containsSub (chars "tripwire") (pyLower e.message) then
    safetyMessage e.output_info
  else if containsSub (chars "api_key") (pyLower e.message) ||
          containsSub (chars "authentication") (pyLower e.message) then
    chars "Invalid OpenAI API key. Please check your API key and try again."
  else if containsSub (chars "rate") (pyLower e.message) ||
          containsSub (chars "limit") (pyLower e.message) then
    chars "Rate limit exceeded. Please wait a moment and try again."
  else if containsSub (chars "network") (pyLower e.message) ||
          containsSub (chars "connection") (pyLower e.message) then
    chars "Network error. Please check your internet connection and try again."
  else
    chars "An error occurred while processing the email: " ++ e.message

/-- Keyword test of the safety-rejection branch (src/tools.py line 513). -/
def safetyKw (e : PyExn) : Bool :=
  containsSub (chars "guardrail") (pyLower e.message) ||
    containsSub (chars "tripwire") (pyLower e.message)

/-- Keyword test of the authentication branch (src/tools.py line 528). -/
def authKw (e : PyExn) : Bool :=
  containsSub (chars "api_key") (pyLower e.message) ||
    containsSub (chars "authentication") (pyLower e.message)

/-- Keyword test of the rate-limit branch (src/tools.py line 530). -/
def rateKw (e : PyExn) : Bool :=
  containsSub (chars "rate") (pyLower e.message) ||
    containsSub (chars "limit") (pyLower e.message)

/-- Keyword test of the network branch (src/tools.py line 532). -/
def netKw (e : PyExn) : Bool :=
  containsSub (chars "network") (pyLower e.message) ||
    containsSub (chars "connection") (pyLower e.message)

/-- Final record returned to the caller; `none` stands for an absent key or a
Python `None` value. -/
structure ProcessingResult where
  success : Bool
  category : Option Str
  summary : Option Str
  reply : Option Str
  error : Option Str

/-- Outcome of `run_agent_in_thread` on the orchestrator agent: either the
final output text or a raised exception. -/
inductive RunOutcome where
  | ok (text : Str)
  | raised (e : PyExn)

/-- Modelled from the spec: the Agents SDK run (external to this repository)
aborts with a tripwire exception when the input guardrail triggers; per the
specification the rejection carries the guardrail verdict (categories,
severity, reason), and its message names the tripwire. -/
def tripwireExn (g : GuardrailFunctionOutput) : PyExn :=
  ⟨chars "Guardrail InputGuardrail triggered tripwire",
   match g.output_info with
   | .checkedInfo v => some ⟨some v.detected_categories, some v.severity, some v.reason⟩
   | _ => none⟩

/-- Modelled from the spec: the orchestrator run first evaluates the input
guardrail on the request; if the tripwire triggers the run raises the
tripwire exception and no task agent runs, otherwise the run proceeds to the
task agents and yields their outcome. -/
def runOrchestrator (screen : ScreenOutcome) (agentsRun : RunOutcome) : RunOutcome :=
  let g := guardrail_against_malicious_content screen
  if g.tripwire_triggered then .raised (tripwireExn g) else agentsRun

/-- Embedding of `process_email_with_handoff_agent` (src/tools.py lines
397-543) given the outcome of the orchestrator run: on success the raw output
is parsed and returned with `success=True` and a `None` error (lines
501-507); on an exception the classified message is returned with
`success=False` and `None` fields (lines 509-543). -/
def process_email_with_handoff_agent (run : RunOutcome) : ProcessingResult :=
  match run with
  | .ok text =>
    let p := parseResult text
    ⟨true, some p.category, some p.summary, some p.reply, none⟩
  | .raised e => ⟨false, none, none, none, some (classifyError e)⟩

/-- Validation message for blank email text (src/agent.py line 32). -/
def emptyEmailMsg : Str :=
  chars "Email content cannot be empty. Please provide the email text to process."

/-- Validation message for a blank credential (src/agent.py line 38). -/
def apiKeyMsg : Str :=
  chars "OpenAI API key is required. Please enter your API key."

/-- Embedding of `process_email` (src/agent.py lines 12-42): validate the
email text, then the credential, then delegate to the handoff pipeline. The
screen and agent-run outcomes parameterise the external calls. -/
def process_email (email_text api_key : Str)
    (screen : ScreenOutcome) (agentsRun : RunOutcome) : ProcessingResult :=
  if pyStrip email_text = [] then ⟨false, none, none, none, some emptyEmailMsg⟩
  else if pyStrip api_key = [] then ⟨false, none, none, none, some apiKeyMsg⟩
  else process_email_with_handoff_agent (runOrchestrator screen agentsRun)

/-- Relation holding between adjacent characters of a text that contains no
literal backslash-n pair: a backslash is never immediately followed by n. -/
def noEscStep (a b : Char) : Prop := a = '\\' → b ≠ 'n'

instance noEscStepDec : DecidableRel noEscStep := fun a b =>
  decidable_of_iff (a = '\\' → b ≠ 'n') Iff.rfl

/-- Executable check that no backslash is immediately followed by n. -/
def noEscB : Str → Bool
  | [] => true
  | [_] => true
  | a :: b :: t => decide (noEscStep a b) && noEscB (b :: t)

theorem replaceAllFuel_nil (old new : Str) : ∀ f, replaceAllFuel old new f [] = [] := by
  intro f
  cases f <;> rfl

theorem replaceAllFuel_irrel (old new : Str) :
    ∀ (f₁ : Nat) (s : Str) (f₂ : Nat), s.length ≤ f₁ → s.length ≤ f₂ →
      replaceAllFuel old new f₁ s = replaceAllFuel old new f₂ s := by
  intro f₁
  induction f₁ with
  | zero =>
    intro s f₂ h₁ _
    have hs : s = [] := List.length_eq_zero.mp (Nat.le_zero.mp h₁)
    subst hs
    rw [replaceAllFuel_nil, replaceAllFuel_nil]
  | succ f ih =>
    intro s f₂ h₁ h₂
    cases s with
    | nil => rw [replaceAllFuel_nil, replaceAllFuel_nil]
    | cons c rest =>
      cases f₂ with
      | zero => exact absurd h₂ (by simp)
      | succ g =>
        show (if old ≠ [] ∧ old.isPrefixOf (c :: rest) = true then
                new ++ replaceAllFuel old new f ((c :: rest).drop old.length)
              else c :: replaceAllFuel old new f rest) =
             (if old ≠ [] ∧ old.isPrefixOf (c :: rest) = true then
                new ++ replaceAllFuel old new g ((c :: rest).drop old.length)
              else c :: replaceAllFuel old new g rest)
        by_cases hc : old ≠ [] ∧ old.isPrefixOf (c :: rest) = true
        · have hlen : ((c :: rest).drop old.length).length ≤ rest.length := by
            have hpos : 0 < old.length := List.length_pos.mpr hc.1
            simp only [List.length_drop, List.length_cons]
            omega
          rw [if_pos hc, if_pos hc,
            ih _ _ (Nat.le_trans hlen (Nat.le_of_succ_le_succ h₁))
              (Nat.le_trans hlen (Nat.le_of_succ_le_succ h₂))]
        · rw [if_neg hc, if_neg hc,
            ih _ _ (Nat.le_of_succ_le_succ h₁) (Nat.le_of_succ_le_succ h₂)]

theorem replaceAll_cons (old new : Str) (c : Char) (rest : Str) :
    replaceAll old new (c :: rest) =
      if old ≠ [] ∧ old.isPrefixOf (c :: rest) = true then
        new ++ replaceAll old new ((c :: rest).drop old.length)
      else c :: replaceAll old new rest := by
  show (if old ≠ [] ∧ old.isPrefixOf (c :: rest) = true then
          new ++ replaceAllFuel old new rest.length ((c :: rest).drop old.length)
        else c :: replaceAllFuel old new rest.length rest) = _
  by_cases hc : old ≠ [] ∧ old.isPrefixOf (c :: rest) = true
  · have hlen : ((c :: rest).drop old.length).length ≤ rest.length := by
      have hpos : 0 < old.length := List.length_pos.mpr hc.1
      simp only [List.length_drop, List.length_cons]
      omega
    rw [if_pos hc, if_pos hc]
    unfold replaceAll
    rw [replaceAllFuel_irrel old new rest.length _ _ hlen (Nat.le_refl _)]
  · rw [if_neg hc, if_neg hc]
    rfl

theorem chain'_of_leading {R : Char → Char → Prop} {l l' : Str}
    (h : List.Chain' R l) (hp : l' <+: l) : List.Chain' R l' := by
  obtain ⟨t, rfl⟩ := hp
  exact (List.chain'_append.mp h).1

theorem interc_nil (s : Str) : List.intercalate s ([] : List Str) = [] := by
  simp [List.intercalate]

theorem interc_single (s a : Str) : List.intercalate s [a] = a := by
  simp [List.intercalate]

theorem interc_cons₂ (s a b : Str) (t : List Str) :
    List.intercalate s (a :: b :: t) = a ++ s ++ List.intercalate s (b :: t) := by
  simp [List.intercalate, List.intersperse_cons_cons, List.append_assoc]

theorem replaceAll_esc_head (s : Str)
    (h : (replaceAll (chars "\\n") ['\n'] s).head? = some 'n') :
    s.head? = some 'n' := by
  cases s with
  | nil => simp [replaceAll, replaceAllFuel] at h
  | cons c rest =>
    rw [replaceAll_cons] at h
    by_cases hc : chars "\\n" ≠ [] ∧ (chars "\\n").isPrefixOf (c :: rest) = true
    · rw [if_pos hc] at h
      simp at h
    · rw [if_neg hc] at h
      simp at h
      simp [h]

theorem replaceAll_esc_chain :
    ∀ (n : Nat) (s : Str), s.length ≤ n →
      List.Chain' noEscStep (replaceAll (chars "\\n") ['\n'] s) := by
  intro n
  induction n with
  | zero =>
    intro s hs
    have : s = [] := List.length_eq_zero.mp (Nat.le_zero.mp hs)
    subst this
    simp [replaceAll, replaceAllFuel]
  | succ n ih =>
    intro s hs
    cases s with
    | nil => simp [replaceAll, replaceAllFuel]
    | cons c rest =>
      rw [replaceAll_cons]
      by_cases hc : chars "\\n" ≠ [] ∧ (chars "\\n").isPrefixOf (c :: rest) = true
      · rw [if_pos hc]
        rw [List.singleton_append]
        refine List.chain'_cons'.mpr ⟨?_, ?_⟩
        · intro y _ hEq
          exact absurd hEq (by decide)
        · refine ih _ ?_
          have h2 : (chars "\\n").length = 2 := rfl
          simp only [List.length_drop, List.length_cons, h2]
          simp only [List.length_cons] at hs
          omega
      · rw [if_neg hc]
        refine List.chain'_cons'.mpr ⟨?_, ?_⟩
        · intro y hy hbs
          intro hyn
          subst hyn
          rw [Option.mem_def] at hy
          have hhead := replaceAll_esc_head rest hy
          cases rest with
          | nil => simp at hhead
          | cons d rest' =>
            simp at hhead
            subst hhead
            subst hbs
            exact hc ⟨by decide, by simp [List.isPrefixOf, chars]⟩
        · exact ih rest (by simp only [List.length_cons] at hs; omega)

theorem chain'_intercalate_rstrip :
    ∀ (ps : List Str),
      List.Chain' noEscStep (List.intercalate ['\n'] ps) →
      List.Chain' noEscStep (List.intercalate ['\n'] (ps.map pyRstrip)) := by
  intro ps
  induction ps with
  | nil => intro h; simpa using h
  | cons p ps ih =>
    cases ps with
    | nil =>
      intro h
      rw [List.map_cons, List.map_nil, interc_single]
      rw [interc_single] at h
      exact chain'_of_leading h (List.rdropWhile_prefix _ _)
    | cons q t =>
      intro h
      rw [interc_cons₂] at h
      rw [List.map_cons, List.map_cons, interc_cons₂]
      have h1 := List.chain'_append.mp h
      have hp : List.Chain' noEscStep p := (List.chain'_append.mp h1.1).1
      have ihh := ih h1.2.1
      rw [List.map_cons] at ihh
      refine List.Chain'.append ?_ ihh ?_
      · refine List.Chain'.append (chain'_of_leading hp (List.rdropWhile_prefix _ _))
          (List.chain'_singleton _) ?_
        intro x _ y hy
        simp at hy
        subst hy
        intro hEq
        decide
      · intro x hx y _
        rw [List.getLast?_concat] at hx
        simp at hx
        subst hx
        intro hEq
        exact absurd hEq (by decide)

theorem splitOnP_forall_not {α : Type} (q : α → Bool) :
    ∀ (xs p : List α), p ∈ xs.splitOnP q → ∀ y ∈ p, ¬ q y = true := by
  intro xs
  induction xs with
  | nil =>
    intro p hp y hy
    rw [List.splitOnP_nil] at hp
    simp at hp
    subst hp
    simp at hy
  | cons a xs ih =>
    intro p hp y hy
    rw [List.splitOnP_cons] at hp
    by_cases ha : q a = true
    · rw [if_pos ha] at hp
      rcases List.mem_cons.mp hp with h1 | h2
      · subst h1; simp at hy
      · exact ih p h2 y hy
    · rw [if_neg ha] at hp
      cases hsp : xs.splitOnP q with
      | nil => exact absurd hsp (List.splitOnP_ne_nil q xs)
      | cons hd tl =>
        rw [hsp] at hp
        rw [List.modifyHead_cons] at hp
        rcases List.mem_cons.mp hp with h1 | h2
        · subst h1
          rcases List.mem_cons.mp hy with h3 | h4
          · subst h3; exact ha
          · exact ih hd (hsp ▸ List.mem_cons_self hd tl) y h4
        · exact ih p (hsp ▸ List.mem_cons_of_mem hd h2) y hy

theorem not_mem_of_mem_splitOn {x : Char} {xs p : Str} (hp : p ∈ xs.splitOn x) : x ∉ p := by
  intro hxp
  exact splitOnP_forall_not (· == x) xs p hp x hxp (by simp)

theorem chain'_of_noEscB : ∀ s : Str, noEscB s = true → List.Chain' noEscStep s := by
  intro s
  induction s with
  | nil => intro _; simp
  | cons a t ih =>
    cases t with
    | nil => intro _; exact List.chain'_singleton a
    | cons b t' =>
      intro h
      rw [noEscB] at h
      rw [Bool.and_eq_true] at h
      exact List.chain'_cons.mpr ⟨of_decide_eq_true h.1, ih h.2⟩

theorem pyPostFormat_chain' (r : Str) : List.Chain' noEscStep (pyPostFormat r) := by
  unfold pyPostFormat
  by_cases hc : r ≠ [] ∧ r ≠ chars "Unable to generate reply"
  · rw [if_pos hc]
    show List.Chain' noEscStep (List.intercalate ['\n']
      (((replaceAll (chars "\\n") ['\n'] r).splitOn '\n').map pyRstrip))
    have hs := replaceAll_esc_chain (r.length) r (Nat.le_refl _)
    have hinterc := List.intercalate_splitOn (replaceAll (chars "\\n") ['\n'] r) '\n'
    refine chain'_intercalate_rstrip _ ?_
    rw [show (['\n'] : List Char).intercalate
          ((replaceAll (chars "\\n") ['\n'] r).splitOn '\n') =
        List.intercalate ['\n'] ((replaceAll (chars "\\n") ['\n'] r).splitOn '\n') from rfl]
      at hinterc
    rw [hinterc]
    exact hs
  · rw [if_neg hc]
    push_neg at hc
    by_cases hr : r = []
    · subst hr; simp
    · have hd := hc hr
      rw [hd]
      exact chain'_of_noEscB _ (by decide)

theorem parseLine_initState (l : Str)
    (h1 : (chars "Category:").isPrefixOf (pyStrip l) = false)
    (h2 : (chars "Summary:").isPrefixOf (pyStrip l) = false)
    (h3 : (chars "Reply:").isPrefixOf (pyStrip l) = false) :
    parseLine initState l = initState := by
  by_cases hl : pyStrip l = []
  · simp [parseLine, hl, initState]
  · simp [parseLine, hl, h1, h2, h3, initState]

theorem foldl_parseLine_initState :
    ∀ ls : List Str,
      (∀ l ∈ ls, (chars "Category:").isPrefixOf (pyStrip l) = false ∧
                 (chars "Summary:").isPrefixOf (pyStrip l) = false ∧
                 (chars "Reply:").isPrefixOf (pyStrip l) = false) →
      ls.foldl parseLine initState = initState := by
  intro ls
  induction ls with
  | nil => intro _; rfl
  | cons l ls ih =>
    intro h
    rw [List.foldl_cons]
    have hl := h l (List.mem_cons_self l ls)
    rw [parseLine_initState l hl.1 hl.2.1 hl.2.2]
    exact ih fun x hx => h x (List.mem_cons_of_mem l hx)

theorem containsSub_of_isPrefixOf {u hay : Str} (hp : u.isPrefixOf hay = true) :
    containsSub u hay = true := by
  cases hay with
  | nil => rw [containsSub]; exact hp
  | cons c rest => rw [containsSub, hp]; rfl

theorem containsSub_sandwich (u : Str) : ∀ a b : Str, containsSub u (a ++ u ++ b) = true := by
  intro a
  induction a with
  | nil =>
    intro b
    exact containsSub_of_isPrefixOf (List.isPrefixOf_iff_prefix.mpr (List.prefix_append u b))
  | cons c a' ih =>
    intro b
    show containsSub u (c :: (a' ++ u ++ b)) = true
    rw [containsSub, ih b]
    simp

theorem intercalate_cons_head (s c : Str) (r : List Str) :
    ∃ t, List.intercalate s (c :: r) = c ++ t := by
  cases r with
  | nil => exact ⟨[], by rw [interc_single]; simp⟩
  | cons d r' =>
    exact ⟨s ++ List.intercalate s (d :: r'), by rw [interc_cons₂, List.append_assoc]⟩

theorem pyPostFormat_splitOn (r : Str) (h0 : r ≠ [])
    (h1 : r ≠ chars "Unable to generate reply") :
    (pyPostFormat r).splitOn '\n' =
      ((replaceAll (chars "\\n") ['\n'] r).splitOn '\n').map pyRstrip := by
  unfold pyPostFormat
  rw [if_pos ⟨h0, h1⟩]
  show (List.intercalate ['\n']
    (((replaceAll (chars "\\n") ['\n'] r).splitOn '\n').map pyRstrip)).splitOn '\n' = _
  apply List.splitOn_intercalate
  · intro l hl
    rcases List.mem_map.mp hl with ⟨p, hp, rfl⟩
    intro hmem
    exact not_mem_of_mem_splitOn hp ((List.rdropWhile_prefix _ _).sublist.mem hmem)
  · rw [Ne, List.map_eq_nil_iff]
    show (replaceAll (chars "\\n") ['\n'] r).splitOnP (· == '\n') ≠ []
    exact List.splitOnP_ne_nil _ _

theorem classifyError_safety (e : PyExn) (h : safetyKw e = true) :
    classifyError e = safetyMessage e.output_info := by
  unfold classifyError
  unfold safetyKw at h
  rw [if_pos h]

/-- C2: when the screener has no credential or the screening step raises, the
guardrail does not trigger the tripwire, and the orchestrator run proceeds to
the task agents unchanged instead of rejecting. -/
theorem C2_fail_open :
    (guardrail_against_malicious_content .noApiKey).tripwire_triggered = false ∧
    (∀ m : Str, (guardrail_against_malicious_content (.exn m)).tripwire_triggered = false) ∧
    (∀ run : RunOutcome, runOrchestrator .noApiKey run = run) ∧
    (∀ (m : Str) (run : RunOutcome), runOrchestrator (.exn m) run = run) :=
  ⟨rfl, fun _ => rfl, fun _ => rfl, fun _ _ => rfl⟩

/-- C3: with non-blank email text and credential, a non-malicious screener
verdict and a successful agent run, the result is a success carrying all
three parsed fields and a null error. -/
theorem C3_success_all_fields (e k text : Str) (v : ContentCheckOutput)
    (he : pyStrip e ≠ []) (hk : pyStrip k ≠ []) (hm : v.is_malicious = false) :
    (process_email e k (.verdict v) (.ok text)).success = true ∧
    (process_email e k (.verdict v) (.ok text)).category = some (parseResult text).category ∧
    (process_email e k (.verdict v) (.ok text)).summary = some (parseResult text).summary ∧
    (process_email e k (.verdict v) (.ok text)).reply = some (parseResult text).reply ∧
    (process_email e k (.verdict v) (.ok text)).error = none := by
  have hrun : runOrchestrator (.verdict v) (.ok text) = .ok text := by
    simp [runOrchestrator, guardrail_against_malicious_content, hm]
  have hpe : process_email e k (.verdict v) (.ok text) =
      ⟨true, some (parseResult text).category, some (parseResult text).summary,
       some (parseResult text).reply, none⟩ := by
    unfold process_email
    rw [if_neg he, if_neg hk, hrun]
    rfl
  rw [hpe]
  exact ⟨rfl, rfl, rfl, rfl, rfl⟩

/-- C3 witness: a concrete run through the success path. -/
theorem C3_success_all_fields_witness :
    (process_email (chars "hi team") (chars "sk-1")
        (.verdict ⟨false, [], chars "low", chars "clean"⟩)
        (.ok (chars "Category: Inquiry\nSummary: S.\nReply: R."))).success = true ∧
    (process_email (chars "hi team") (chars "sk-1")
        (.verdict ⟨false, [], chars "low", chars "clean"⟩)
        (.ok (chars "Category: Inquiry\nSummary: S.\nReply: R."))).category =
      some (parseResult (chars "Category: Inquiry\nSummary: S.\nReply: R.")).category ∧
    (process_email (chars "hi team") (chars "sk-1")
        (.verdict ⟨false, [], chars "low", chars "clean"⟩)
        (.ok (chars "Category: Inquiry\nSummary: S.\nReply: R."))).summary =
      some (parseResult (chars "Category: Inquiry\nSummary: S.\nReply: R.")).summary ∧
    (process_email (chars "hi team") (chars "sk-1")
        (.verdict ⟨false, [], chars "low", chars "clean"⟩)
        (.ok (chars "Category: Inquiry\nSummary: S.\nReply: R."))).reply =
      some (parseResult (chars "Category: Inquiry\nSummary: S.\nReply: R.")).reply ∧
    (process_email (chars "hi team") (chars "sk-1")
        (.verdict ⟨false, [], chars "low", chars "clean"⟩)
        (.ok (chars "Category: Inquiry\nSummary: S.\nReply: R."))).error = none :=
  C3_success_all_fields (chars "hi team") (chars "sk-1")
    (chars "Category: Inquiry\nSummary: S.\nReply: R.")
    ⟨false, [], chars "low", chars "clean"⟩ (by decide) (by decide) rfl

/-- C4: every result, on every path including validation failure, is either a
success carrying all three fields or a failure carrying an error and none of
the three fields, and never both. -/
theorem C4_result_invariant (e k : Str) (screen : ScreenOutcome) (run : RunOutcome) :
    Xor' ((process_email e k screen run).success = true ∧
          (process_email e k screen run).category.isSome = true ∧
          (process_email e k screen run).summary.isSome = true ∧
          (process_email e k screen run).reply.isSome = true)
         ((process_email e k screen run).success = false ∧
          (process_email e k screen run).error.isSome = true ∧
          (process_email e k screen run).category = none ∧
          (process_email e k screen run).summary = none ∧
          (process_email e k screen run).reply = none) := by
  unfold process_email
  by_cases h1 : pyStrip e = []
  · rw [if_pos h1]
    exact Or.inr ⟨⟨rfl, rfl, rfl, rfl, rfl⟩, fun hc => absurd hc.1 (by decide)⟩
  · rw [if_neg h1]
    by_cases h2 : pyStrip k = []
    · rw [if_pos h2]
      exact Or.inr ⟨⟨rfl, rfl, rfl, rfl, rfl⟩, fun hc => absurd hc.1 (by decide)⟩
    · rw [if_neg h2]
      cases hro : runOrchestrator screen run with
      | ok t =>
        exact Or.inl ⟨⟨rfl, rfl, rfl, rfl⟩, fun hc => nomatch hc.1⟩
      | raised ex =>
        exact Or.inr ⟨⟨rfl, rfl, rfl, rfl, rfl⟩, fun hc => nomatch hc.1⟩

/-- C10: validation checks the email text before the credential: with both
blank the empty-email message is returned, and the credential message can
only be returned when the email text is non-blank. -/
theorem C10_validation_order :
    (∀ (e k : Str) (screen : ScreenOutcome) (run : RunOutcome),
      pyStrip e = [] → pyStrip k = [] →
      process_email e k screen run = ⟨false, none, none, none, some emptyEmailMsg⟩) ∧
    (∀ (e k : Str) (screen : ScreenOutcome) (run : RunOutcome),
      (process_email e k screen run).error = some apiKeyMsg → pyStrip e ≠ []) := by
  constructor
  · intro e k screen run he _
    unfold process_email
    rw [if_pos he]
  · intro e k screen run herr he
    unfold process_email at herr
    rw [if_pos he] at herr
    simp at herr
    exact absurd herr (by decide)

/-- C10 witness: both inputs blank yields the empty-email message. -/
theorem C10_validation_order_witness :
    process_email (chars "   ") (chars "") ScreenOutcome.noApiKey (.ok []) =
      ⟨false, none, none, none, some emptyEmailMsg⟩ :=
  C10_validation_order.1 (chars "   ") (chars "") ScreenOutcome.noApiKey (.ok [])
    (by decide) (by decide)

/-- C5 counterexample: an exception with no structural guardrail information
at all, whose message merely contains the keyword tripwire, is classified as
a safety rejection — so safety rejection is detected by keyword matching, not
structurally as the claim states. -/
theorem C5_counterexample :
    classifyError ⟨chars "tripwire hobby report", none⟩ =
      chars "Content blocked by safety guardrail. The email contains potentially harmful, offensive, or inappropriate content that cannot be processed." ∧
    classifyError ⟨chars "tripwire hobby report", none⟩ ≠
      chars "An error occurred while processing the email: " ++ chars "tripwire hobby report" := by
  constructor
  · decide
  · decide

/-- C5 amended: error classification matches keywords in the lower-cased
message in the priority order safety (guardrail or tripwire keywords, with
the structural output info only enriching the message), authentication,
rate limit, network, unknown; the first matching branch wins. -/
theorem C5_amended_priority (e : PyExn) :
    (safetyKw e = true → classifyError e = safetyMessage e.output_info) ∧
    (safetyKw e = false → authKw e = true →
      classifyError e = chars "Invalid OpenAI API key. Please check your API key and try again.") ∧
    (safetyKw e = false → authKw e = false → rateKw e = true →
      classifyError e = chars "Rate limit exceeded. Please wait a moment and try again.") ∧
    (safetyKw e = false → authKw e = false → rateKw e = false → netKw e = true →
      classifyError e = chars "Network error. Please check your internet connection and try again.") ∧
    (safetyKw e = false → authKw e = false → rateKw e = false → netKw e = false →
      classifyError e = chars "An error occurred while processing the email: " ++ e.message) := by
  refine ⟨fun h => classifyError_safety e h, ?_, ?_, ?_, ?_⟩
  · intro hs ha
    unfold classifyError
    unfold safetyKw at hs
    unfold authKw at ha
    rw [if_neg (by simp [hs]), if_pos ha]
  · intro hs ha hr
    unfold classifyError
    unfold safetyKw at hs
    unfold authKw at ha
    unfold rateKw at hr
    rw [if_neg (by simp [hs]), if_neg (by simp [ha]), if_pos hr]
  · intro hs ha hr hn
    unfold classifyError
    unfold safetyKw at hs
    unfold authKw at ha
    unfold rateKw at hr
    unfold netKw at hn
    rw [if_neg (by simp [hs]), if_neg (by simp [ha]), if_neg (by simp [hr]), if_pos hn]
  · intro hs ha hr hn
    unfold classifyError
    unfold safetyKw at hs
    unfold authKw at ha
    unfold rateKw at hr
    unfold netKw at hn
    rw [if_neg (by simp [hs]), if_neg (by simp [ha]), if_neg (by simp [hr]),
      if_neg (by simp [hn])]

/-- C5 amended witness: a rate-limit message passes the two earlier branches
and lands in the rate branch. -/
theorem C5_amended_priority_witness :
    classifyError ⟨chars "HTTP 429: too many requests, rate exceeded", none⟩ =
      chars "Rate limit exceeded. Please wait a moment and try again." :=
  (C5_amended_priority ⟨chars "HTTP 429: too many requests, rate exceeded", none⟩).2.2.1
    (by decide) (by decide) (by decide)

/-- C6: an input none of whose stripped lines starts with a Category:,
Summary: or Reply: marker parses to exactly the three default values, and the
pipeline delivers them as a normal success result with a null error. -/
theorem C6_no_markers_defaults (input : Str)
    (h : ∀ l ∈ (pyStrip input).splitOn '\n',
      (chars "Category:").isPrefixOf (pyStrip l) = false ∧
      (chars "Summary:").isPrefixOf (pyStrip l) = false ∧
      (chars "Reply:").isPrefixOf (pyStrip l) = false) :
    parseResult input = ⟨chars "Other", chars "Unable to generate summary",
      chars "Unable to generate reply"⟩ ∧
    process_email_with_handoff_agent (.ok input) =
      ⟨true, some (chars "Other"), some (chars "Unable to generate summary"),
       some (chars "Unable to generate reply"), none⟩ := by
  have hst := foldl_parseLine_initState ((pyStrip input).splitOn '\n') h
  have hparse : parseResult input = ⟨chars "Other", chars "Unable to generate summary",
      chars "Unable to generate reply"⟩ := by
    have hz : parseResult input =
        ⟨(List.foldl parseLine initState ((pyStrip input).splitOn '\n')).category,
         (List.foldl parseLine initState ((pyStrip input).splitOn '\n')).summary,
         pyPostFormat
           (if (List.foldl parseLine initState ((pyStrip input).splitOn '\n')).reply_lines = []
            then chars "Unable to generate reply"
            else List.intercalate ['\n']
              (List.foldl parseLine initState ((pyStrip input).splitOn '\n')).reply_lines)⟩ := rfl
    rw [hz, hst]
    show (⟨chars "Other", chars "Unable to generate summary",
      pyPostFormat (if ([] : List Str) = [] then chars "Unable to generate reply"
        else List.intercalate ['\n'] ([] : List Str))⟩ : ParseOut) = _
    rw [if_pos rfl]
    rw [show pyPostFormat (chars "Unable to generate reply") =
      chars "Unable to generate reply" by decide]
  refine ⟨hparse, ?_⟩
  show (⟨true, some (parseResult input).category, some (parseResult input).summary,
    some (parseResult input).reply, none⟩ : ProcessingResult) = _
  rw [hparse]

/-- C6 witness: a marker-free input yields the defaults as a success. -/
theorem C6_no_markers_defaults_witness :
    parseResult (chars "hello there\nno structured output") =
      ⟨chars "Other", chars "Unable to generate summary",
       chars "Unable to generate reply"⟩ ∧
    process_email_with_handoff_agent (.ok (chars "hello there\nno structured output")) =
      ⟨true, some (chars "Other"), some (chars "Unable to generate summary"),
       some (chars "Unable to generate reply"), none⟩ :=
  C6_no_markers_defaults (chars "hello there\nno structured output") (by decide)

/-- C7 counterexample: a Reply: line with empty remainder does not keep the
empty remainder as a first accumulated piece; parsing the claimed example
yields the reply Line two without a leading empty line. -/
theorem C7_counterexample :
    (parseResult (chars "Reply:\nLine two")).reply = chars "Line two" ∧
    (parseResult (chars "Reply:\nLine two")).reply ≠ chars "\nLine two" := by
  constructor
  · decide
  · decide

/-- C7 amended: a line whose stripped content is exactly Reply: resets the
reply accumulation to the empty list, discarding the empty remainder, so the
final reply is assembled only from the following lines (and stays the default
when none follow). -/
theorem C7_amended_empty_marker_resets (st : ParseState) (l : Str)
    (h : pyStrip l = chars "Reply:") :
    parseLine st l = ⟨st.category, st.summary, [], some FieldTag.rep⟩ := by
  unfold parseLine
  rw [h]
  rfl

/-- C7 amended witness: a padded Reply: marker line resets the accumulation
from any prior state. -/
theorem C7_amended_empty_marker_resets_witness :
    parseLine ⟨chars "Other", chars "Unable to generate summary",
        [chars "old piece"], some FieldTag.rep⟩ (chars "  Reply:  ") =
      ⟨chars "Other", chars "Unable to generate summary", [], some FieldTag.rep⟩ :=
  C7_amended_empty_marker_resets
    ⟨chars "Other", chars "Unable to generate summary",
      [chars "old piece"], some FieldTag.rep⟩ (chars "  Reply:  ") (by decide)

/-- C8 counterexample: a continuation line inside a reply block is not kept
verbatim — its leading whitespace is stripped before accumulation, so the
indented line two surfaces unindented in the final reply. -/
theorem C8_counterexample :
    (parseResult (chars "Reply: A\n  B")).reply = chars "A\nB" ∧
    (parseResult (chars "Reply: A\n  B")).reply ≠ chars "A\n  B" := by
  constructor
  · decide
  · decide

/-- C8 amended: a non-blank continuation line in reply mode is appended after
stripping whitespace at both ends (not verbatim); post-processing rewrites the
reply so that its line list is exactly the per-line rstrip of the
escape-normalized text, and rstrip only ever removes a trailing segment, so
leading whitespace surviving accumulation is preserved. -/
theorem C8_amended_lines_stripped :
    (∀ (st : ParseState) (l : Str),
      st.current_field = some FieldTag.rep →
      pyStrip l ≠ [] →
      (chars "Category:").isPrefixOf (pyStrip l) = false →
      (chars "Summary:").isPrefixOf (pyStrip l) = false →
      (chars "Reply:").isPrefixOf (pyStrip l) = false →
      parseLine st l =
        ⟨st.category, st.summary, st.reply_lines ++ [pyStrip l], some FieldTag.rep⟩) ∧
    (∀ r : Str, r ≠ [] → r ≠ chars "Unable to generate reply" →
      (pyPostFormat r).splitOn '\n' =
        ((replaceAll (chars "\\n") ['\n'] r).splitOn '\n').map pyRstrip) ∧
    (∀ l : Str, pyRstrip l <+: l) := by
  refine ⟨?_, pyPostFormat_splitOn, fun l => List.rdropWhile_prefix _ _⟩
  intro st l hcf hne h1 h2 h3
  simp [parseLine, hne, h1, h2, h3, hcf]

/-- C8 amended witness: an indented continuation line is appended stripped. -/
theorem C8_amended_lines_stripped_witness :
    parseLine ⟨chars "Other", chars "Unable to generate summary",
        [chars "A"], some FieldTag.rep⟩ (chars "  B  ") =
      ⟨chars "Other", chars "Unable to generate summary",
        [chars "A", chars "B"], some FieldTag.rep⟩ :=
  (C8_amended_lines_stripped.1 ⟨chars "Other", chars "Unable to generate summary",
      [chars "A"], some FieldTag.rep⟩ (chars "  B  ")
    rfl (by decide) (by decide) (by decide) (by decide)).trans (by decide)

/-- C9: in the final reply no backslash is ever immediately followed by n —
every literal backslash-n pair was replaced — and on the concrete example the
pair becomes an actual line break at that position. -/
theorem C9_escapes_become_breaks :
    (∀ input : Str, List.Chain' noEscStep (parseResult input).reply) ∧
    (parseResult (chars "Reply: Hello\\nWorld")).reply = chars "Hello\nWorld" := by
  constructor
  · intro input
    exact pyPostFormat_chain' _
  · decide

/-- C1: with a malicious screener verdict (and validation passed), the result
is a failure with a non-empty error that mentions a detected category
whenever the verdict listed any, and carries no parsed category, summary or
reply. -/
theorem C1_malicious_rejected (e k : Str) (v : ContentCheckOutput) (run : RunOutcome)
    (he : pyStrip e ≠ []) (hk : pyStrip k ≠ []) (hm : v.is_malicious = true) :
    (process_email e k (.verdict v) run).success = false ∧
    (∃ m, (process_email e k (.verdict v) run).error = some m ∧ m ≠ [] ∧
      (v.detected_categories ≠ [] →
        ∃ c ∈ v.detected_categories, containsSub c m = true)) ∧
    (process_email e k (.verdict v) run).category = none ∧
    (process_email e k (.verdict v) run).summary = none ∧
    (process_email e k (.verdict v) run).reply = none := by
  have hrun : runOrchestrator (.verdict v) run =
      .raised (tripwireExn ⟨.checkedInfo v, true⟩) := by
    simp [runOrchestrator, guardrail_against_malicious_content, hm]
  have hpe : process_email e k (.verdict v) run =
      ⟨false, none, none, none,
       some (classifyError (tripwireExn ⟨.checkedInfo v, true⟩))⟩ := by
    unfold process_email
    rw [if_neg he, if_neg hk, hrun]
    rfl
  have hkw : safetyKw (tripwireExn ⟨GuardrailInfo.checkedInfo v, true⟩) = true := by
    show (containsSub (chars "guardrail")
        (pyLower (chars "Guardrail InputGuardrail triggered tripwire")) ||
      containsSub (chars "tripwire")
        (pyLower (chars "Guardrail InputGuardrail triggered tripwire"))) = true
    decide
  have hmv : classifyError (tripwireExn ⟨GuardrailInfo.checkedInfo v, true⟩) =
      safetyMessage (some ⟨some v.detected_categories, some v.severity, some v.reason⟩) :=
    classifyError_safety _ hkw
  have hsm : safetyMessage
      (some ⟨some v.detected_categories, some v.severity, some v.reason⟩) =
      if v.detected_categories ≠ [] then
        chars "Content blocked by safety guardrail. Detected issues: " ++
          List.intercalate (chars ", ") v.detected_categories ++
          chars " (Severity: " ++ v.severity ++ chars "). Reason: " ++ v.reason
      else chars "Content blocked by safety guardrail. Reason: " ++ v.reason := rfl
  rw [hpe]
  refine ⟨rfl, ⟨classifyError (tripwireExn ⟨.checkedInfo v, true⟩), rfl, ?_, ?_⟩,
    rfl, rfl, rfl⟩
  · rw [hmv, hsm]
    by_cases hc : v.detected_categories ≠ []
    · rw [if_pos hc]
      exact List.append_ne_nil_of_left_ne_nil
        (List.append_ne_nil_of_left_ne_nil
          (List.append_ne_nil_of_left_ne_nil
            (List.append_ne_nil_of_left_ne_nil
              (List.append_ne_nil_of_left_ne_nil (by decide) _) _) _) _) _
    · rw [if_neg hc]
      exact List.append_ne_nil_of_left_ne_nil (by decide) _
  · intro hne
    rw [hmv, hsm, if_pos hne]
    cases hcv : v.detected_categories with
    | nil => exact absurd hcv hne
    | cons c r =>
      refine ⟨c, List.mem_cons_self c r, ?_⟩
      obtain ⟨t, ht⟩ := intercalate_cons_head (chars ", ") c r
      rw [ht]
      have hsw := containsSub_sandwich c
        (chars "Content blocked by safety guardrail. Detected issues: ")
        (t ++ (chars " (Severity: " ++ (v.severity ++ (chars "). Reason: " ++ v.reason))))
      simp only [List.append_assoc] at hsw ⊢
      exact hsw

/-- C1 witness: a concrete malicious verdict with one detected category. -/
theorem C1_malicious_rejected_witness :
    (process_email (chars "please wire money") (chars "sk-1")
        (.verdict ⟨true, [chars "phishing"], chars "high", chars "credential lure"⟩)
        (.ok [])).success = false ∧
    (∃ m, (process_email (chars "please wire money") (chars "sk-1")
        (.verdict ⟨true, [chars "phishing"], chars "high", chars "credential lure"⟩)
        (.ok [])).error = some m ∧ m ≠ [] ∧
      (([chars "phishing"] : List Str) ≠ [] →
        ∃ c ∈ ([chars "phishing"] : List Str), containsSub c m = true)) ∧
    (process_email (chars "please wire money") (chars "sk-1")
        (.verdict ⟨true, [chars "phishing"], chars "high", chars "credential lure"⟩)
        (.ok [])).category = none ∧
    (process_email (chars "please wire money") (chars "sk-1")
        (.verdict ⟨true, [chars "phishing"], chars "high", chars "credential lure"⟩)
        (.ok [])).summary = none ∧
    (process_email (chars "please wire money") (chars "sk-1")
        (.verdict ⟨true, [chars "phishing"], chars "high", chars "credential lure"⟩)
        (.ok [])).reply = none :=
  C1_malicious_rejected (chars "please wire money") (chars "sk-1")
    ⟨true, [chars "phishing"], chars "high", chars "credential lure"⟩ (.ok [])
    (by decide) (by decide) rfl
